import Mathlib

/-!
EnronBox maintenance agents

A shallow embedding of the Go programs under `apps/go_agents`: six one-shot
runners that each send one fixed piece of SQL to the SQLite file
`/app/data/enron.db`, and a daemon that starts six log-and-sleep loops.

The Go code is a few lines per program; what the statements *do* is decided
by the storage engine.  The engine is therefore modelled here as far as the
seven statements of the programs need it, following the documented behaviour
of SQLite with the settings of the driver (double-quoted string literals
accepted, foreign keys not enforced, no collating sequence registered besides
the built-in ones).  The store holds the `emails` table with what decides the
outcome of the statements: whether it is an ordinary table, a virtual table or
a view, its columns with their collating sequences, its records with values of
every storage class, a `DELETE` trigger, and whether its records break its
constraints; besides the table, the names that are taken, the indexes, the
planner statistics and the reclaimable space.
-/

namespace EnronBox

/-! ## The relational store -/

/-- A stored value, by storage class. -/
inductive Value
  /-- SQL `NULL` -/
  | null
  /-- an integer -/
  | integer (i : Int)
  /-- a floating-point number, by its bit pattern -/
  | real (bits : Nat)
  /-- a text -/
  | text (s : String)
  /-- a BLOB, by its bytes -/
  | blob (bytes : List Nat)
deriving DecidableEq

/-- The built-in collating sequences. -/
inductive Collation
  /-- `BINARY`: texts are compared as they are -/
  | binary
  /-- `NOCASE`: the 26 upper-case ASCII letters are folded to lower case -/
  | nocase
  /-- `RTRIM`: trailing spaces are ignored -/
  | rtrim
deriving DecidableEq

/-- A column of a table: its name, its declared type and its collating
sequence, one of the built-in ones. -/
structure Column where
  name : String
  decltype : String
  collation : Collation
deriving DecidableEq

/-- A stored record: its fields in column order.  A record may be shorter than
the column list; the missing trailing fields read as `NULL` (this is how the
engine treats records written before a column without default was
appended). -/
abbrev Row := List Value

/-- What the name `emails` stands for in the schema. -/
inductive TableKind
  /-- an ordinary table -/
  | ordinary
  /-- a virtual table (for instance a full-text table) -/
  | virtual
  /-- a view -/
  | view
deriving DecidableEq

/-- The `DELETE` triggers the model knows, each firing once per deleted
record. -/
inductive TriggerAction
  /-- `BEFORE DELETE ON emails BEGIN SELECT RAISE(IGNORE); END`: the deletion
  of the record is skipped -/
  | raiseIgnore
  /-- `AFTER DELETE ON emails BEGIN INSERT INTO emails VALUES (...); ... END`:
  the given records are inserted, one `INSERT` per record -/
  | insertRows (rows : List Row)
deriving DecidableEq

/-- A table: its columns and its records in storage order, and what else
decides the outcome of the statements. -/
structure Table where
  columns : List Column
  rows : List Row
  /-- ordinary table, virtual table or view -/
  kind : TableKind
  /-- the `DELETE` trigger of the table, if it has one -/
  onDelete : Option TriggerAction
  /-- whether the table has `CHECK` constraints or is `STRICT` and some stored
  record breaks a `CHECK`, a `NOT NULL` or a type of the table -/
  violations : Bool
deriving DecidableEq

/-- An index: its name, the table it is on and the indexed column. -/
structure Index where
  name : String
  table : String
  column : String
deriving DecidableEq

/-- The part of the database file the programs touch.  A file that does not
exist yet in an existing directory is an empty database. -/
structure Db where
  /-- what `emails` is, `none` when the file has nothing of that name -/
  emails : Option Table
  /-- names of the other tables and views of the file -/
  otherTables : List String
  /-- all indexes of the file -/
  indexes : List Index
  /-- what the planner statistics about `emails` were last computed from: the
  table and its indexes as they were then; `none` when the statistics say
  nothing about `emails` -/
  statsFrom : Option (Table × List Index)
  /-- space freed by deletions and not yet given back to the file system -/
  freeSlots : Nat
deriving DecidableEq

/-- The largest number of columns a table may have (the engine's default). -/
def maxColumns : Nat := 2000

/-- Lower-case form of an identifier (ASCII), as a character list. -/
def lower (s : String) : List Char := s.toList.map Char.toLower

/-- Identifiers are compared without regard to ASCII letter case. -/
def sameName (a b : String) : Bool := lower a == lower b

/-- Position of the column called `name`, if there is one. -/
def colIndex : List Column → String → Option Nat
  | [], _ => none
  | c :: cs, name =>
    if sameName c.name name then some 0 else (colIndex cs name).map (· + 1)

/-- Whether the column list has a column called `name`. -/
def hasColumn (cols : List Column) (name : String) : Bool :=
  cols.any (fun c => sameName c.name name)

/-- The collating sequence of the `i`-th column. -/
def collationAt (cols : List Column) (i : Nat) : Collation :=
  match cols.get? i with
  | some c => c.collation
  | none => .binary

/-- The `i`-th field of a record; fields the record does not store are `NULL`. -/
def field (r : Row) (i : Nat) : Value :=
  match r.get? i with
  | some v => v
  | none => .null

/-! ### Comparisons of `WHERE` -/

/-- What a collating sequence compares of a text. -/
def Collation.key : Collation → String → List Char
  | .binary, s => s.toList
  | .nocase, s => s.toList.map Char.toLower
  | .rtrim, s => (s.toList.reverse.dropWhile (fun c => c == ' ')).reverse

/-- `a IS NULL`: never unknown. -/
def sqlIsNull : Value → Option Bool
  | .null => some true
  | _ => some false

/-- `a = b` under a collating sequence: unknown (`none`) as soon as one side is
`NULL`; texts are compared by the collating sequence; values of different
storage classes are different.  (Integers and floating-point numbers are
compared by the engine as numbers; the two only meet when both sides are
columns.) -/
def sqlEq (c : Collation) : Value → Value → Option Bool
  | .null, _ => none
  | _, .null => none
  | .text x, .text y => some (c.key x == c.key y)
  | .integer x, .integer y => some (x == y)
  | .real x, .real y => some (x == y)
  | .blob x, .blob y => some (x == y)
  | _, _ => some false

/-- `p OR q` in three-valued logic. -/
def sqlOr : Option Bool → Option Bool → Option Bool
  | some true, _ => some true
  | _, some true => some true
  | some false, some false => some false
  | _, _ => none

/-! ### Statements -/

/-- The right-hand side of a comparison. -/
inductive Operand
  /-- a single-quoted string literal -/
  | literal (s : String)
  /-- a double-quoted token: a column of that name if the table has one,
  otherwise the engine reads it as a string literal -/
  | quoted (tok : String)
deriving DecidableEq

/-- The statements the programs send, all on `emails`. -/
inductive Stmt
  /-- `ANALYZE` -/
  | analyze
  /-- `DELETE FROM emails WHERE col IS NULL OR col = rhs` -/
  | deleteNullOrEq (col : String) (rhs : Operand)
  /-- `PRAGMA integrity_check` -/
  | integrityCheck
  /-- `CREATE INDEX IF NOT EXISTS name ON emails(col)` -/
  | createIndexIfNotExists (name col : String)
  /-- `ALTER TABLE emails ADD COLUMN name decltype` -/
  | addColumn (c : Column)
  /-- `VACUUM` -/
  | vacuum
deriving DecidableEq

/-- Why a statement was refused. -/
inductive SqlError
  /-- the database file cannot be used (missing directory, permissions,
  not a database, read-only, locked) -/
  | cannotOpen
  /-- the text is not a statement the engine model knows -/
  | unknownStatement
  /-- `no such table` -/
  | noSuchTable (name : String)
  /-- `no such column` -/
  | noSuchColumn (name : String)
  /-- `duplicate column name` -/
  | duplicateColumn (name : String)
  /-- `there is already a table named ...` -/
  | tableNamed (name : String)
  /-- a view can be neither modified, altered nor indexed -/
  | isView (name : String)
  /-- a virtual table can be neither altered nor indexed -/
  | isVirtual (name : String)
  /-- `too many columns` -/
  | tooManyColumns (name : String)
  /-- a constraint of the table does not hold of its records -/
  | constraintFailed (name : String)
  /-- a trigger inserts a record with the wrong number of values -/
  | valuesMismatch (name : String)
deriving DecidableEq

/-- Statement text to statement, for the texts found in the programs and in the
operation table of the specification (the cleanup statement appears there with
a single-quoted empty string, in the program with a double-quoted one). -/
def parse (sql : String) : Option Stmt :=
  if sql = "ANALYZE" then some .analyze
  else if sql = "DELETE FROM emails WHERE body IS NULL OR body = \"\"" then
    some (.deleteNullOrEq "body" (.quoted ""))
  else if sql = "DELETE FROM emails WHERE body IS NULL OR body = ''" then
    some (.deleteNullOrEq "body" (.literal ""))
  else if sql = "PRAGMA integrity_check" then some .integrityCheck
  else if sql = "CREATE INDEX IF NOT EXISTS idx_user_id ON emails(user)" then
    some (.createIndexIfNotExists "idx_user_id" "user")
  else if sql = "CREATE INDEX IF NOT EXISTS idx_folder ON emails(folder)" then
    some (.createIndexIfNotExists "idx_folder" "folder")
  else if sql = "ALTER TABLE emails ADD COLUMN word_count INTEGER" then
    some (.addColumn ⟨"word_count", "INTEGER", .binary⟩)
  else if sql = "VACUUM" then some .vacuum
  else none

/-- The value an operand has in a record of a table with columns `cols`. -/
def Operand.eval (cols : List Column) (r : Row) : Operand → Value
  | .literal s => .text s
  | .quoted tok =>
    match colIndex cols tok with
    | some j => field r j
    | none => .text tok

/-- Whether `col IS NULL OR col = rhs` is true of the record, `col` being the
`i`-th column, whose collating sequence the comparison uses (unknown counts as
not true: such a record is not selected). -/
def selected (cols : List Column) (i : Nat) (rhs : Operand) (r : Row) : Bool :=
  sqlOr (sqlIsNull (field r i)) (sqlEq (collationAt cols i) (field r i) (rhs.eval cols r))
    == some true

/-- `DELETE FROM emails WHERE col IS NULL OR col = rhs`.  A view cannot be
modified.  The selected records are deleted in storage order; a trigger fires
for each of them: with `RAISE(IGNORE)` the record stays, with inserting
triggers the inserted records go to the end of the table and are not visited
by the statement that caused them.  A virtual table is taken to store its
records like a table. -/
def deleteNullOrEq (col : String) (rhs : Operand) (db : Db) : Except SqlError Db :=
  match db.emails with
  | none => .error (.noSuchTable "emails")
  | some t =>
    if t.kind = .view then .error (.isView "emails")
    else
      match colIndex t.columns col with
      | none => .error (.noSuchColumn col)
      | some i =>
        let kept := t.rows.filter (fun r => !selected t.columns i rhs r)
        let gone := t.rows.length - kept.length
        match t.onDelete with
        | none =>
          .ok { db with
                emails := some { t with rows := kept }
                freeSlots := db.freeSlots + gone }
        | some .raiseIgnore => .ok db
        | some (.insertRows rs) =>
          if rs.all (fun r => r.length == t.columns.length) then
            .ok { db with
                  emails := some { t with rows := kept ++ (List.replicate gone rs).flatten }
                  freeSlots := db.freeSlots + gone - gone * rs.length }
          else .error (.valuesMismatch "emails")

/-- `CREATE INDEX IF NOT EXISTS name ON emails(col)`: the table is looked up
first; a view or a virtual table cannot be indexed; an existing table of that
name is an error; an existing index of that name, whatever it is on, makes the
statement do nothing; only then is the column looked up and the index added. -/
def createIndexIfNotExists (name col : String) (db : Db) : Except SqlError Db :=
  match db.emails with
  | none => .error (.noSuchTable "emails")
  | some t =>
    if t.kind = .view then .error (.isView "emails")
    else if t.kind = .virtual then .error (.isVirtual "emails")
    else if sameName "emails" name || db.otherTables.any (fun n => sameName n name) then
      .error (.tableNamed name)
    else if db.indexes.any (fun ix => sameName ix.name name) then .ok db
    else if hasColumn t.columns col then
      .ok { db with indexes := db.indexes ++ [⟨name, "emails", col⟩] }
    else .error (.noSuchColumn col)

/-- `ALTER TABLE emails ADD COLUMN c` for a column without constraints: a
virtual table or a view cannot be altered; the table must have room for one
more column; the name must be new; where the table has `CHECK` constraints or
is `STRICT`, its records are checked and must pass.  The column is appended to
the column list; stored records are not rewritten and read `NULL` in the new
column. -/
def addColumn (c : Column) (db : Db) : Except SqlError Db :=
  match db.emails with
  | none => .error (.noSuchTable "emails")
  | some t =>
    if t.kind = .virtual then .error (.isVirtual "emails")
    else if t.kind = .view then .error (.isView "emails")
    else if maxColumns < t.columns.length + 1 then .error (.tooManyColumns "emails")
    else if hasColumn t.columns c.name then .error (.duplicateColumn c.name)
    else if t.violations then .error (.constraintFailed "emails")
    else .ok { db with emails := some { t with columns := t.columns ++ [c] } }

/-- `ANALYZE`: the statistics are computed afresh from the ordinary tables and
their indexes; virtual tables and views are passed over, and nothing is
recorded about a table without records. -/
def analyze (db : Db) : Db :=
  { db with statsFrom :=
      match db.emails with
      | none => none
      | some t =>
        if t.kind = .ordinary ∧ t.rows ≠ [] then
          some (t, db.indexes.filter (fun ix => sameName ix.table "emails"))
        else none }

/-- `VACUUM`: the file is rebuilt without its free space; tables, indexes and
statistics are carried over. -/
def vacuum (db : Db) : Db := { db with freeSlots := 0 }

/-- Effect of a statement on the store, or the reason it is refused.  A refused
statement changes nothing. -/
def execStmt : Stmt → Db → Except SqlError Db
  | .analyze, db => .ok (analyze db)
  | .deleteNullOrEq col rhs, db => deleteNullOrEq col rhs db
  | .integrityCheck, db => .ok db
  | .createIndexIfNotExists name col, db => createIndexIfNotExists name col db
  | .addColumn c, db => addColumn c db
  | .vacuum, db => .ok (vacuum db)

/-! ## The environment of a run -/

/-- What a program finds when it runs. -/
structure World where
  /-- whether the connection can open, read and write the database file;
  `sql.Open` does not look at the file, so this is found out by the first
  statement -/
  reachable : Bool
  /-- the content of the file -/
  db : Db
  /-- the problems an integrity check of the file finds, in the order it
  reports them; none for a structurally valid file.  What a statement does to
  a damaged file depends on where the damage is; the effects of statements
  below are those on a structurally valid file -/
  problems : List String
deriving DecidableEq

/-- The engine runs a statement text: the store afterwards, or the error. -/
def World.run (w : World) (sql : String) : Except SqlError Db :=
  if w.reachable then
    match parse sql with
    | none => .error .unknownStatement
    | some s => execStmt s w.db
  else .error .cannotOpen

/-- The file after a statement text was run and its outcome thrown away: a
refused statement leaves everything as it was. -/
def World.apply (w : World) (sql : String) : World :=
  match w.run sql with
  | .ok db => { w with db := db }
  | .error _ => w

/-- The rows `PRAGMA integrity_check` returns: the single row `ok` when it
finds nothing, otherwise one row per problem. -/
def integrityRows (w : World) : List String :=
  if w.problems.isEmpty then ["ok"] else w.problems

/-- The engine runs a query text: the rows, or the error. -/
def World.query (w : World) (sql : String) : Except SqlError (List String) :=
  if w.reachable then
    match parse sql with
    | some .integrityCheck => .ok (integrityRows w)
    | some _ => .ok []
    | none => .error .unknownStatement
  else .error .cannotOpen

/-! ## Go processes -/

/-- What a run does that can be seen from outside, in the order it happens. -/
inductive Action
  /-- a line written to standard output -/
  | print (line : String)
  /-- `sql.Open` hands out a handle on the file at `path` -/
  | acquire (path : String)
  /-- `db.Exec` submits a statement text -/
  | exec (sql : String)
  /-- `db.QueryRow` submits a query text -/
  | query (sql : String)
  /-- `db.Close` gives the handle back -/
  | release
deriving DecidableEq

/-- The variable `db` of a runner. -/
inductive Handle
  /-- the nil pointer `sql.Open` returns together with an error -/
  | nil
  /-- a handle that has been opened and not closed -/
  | opened
  /-- a handle after `Close` -/
  | closed
deriving DecidableEq

/-- State of a running `main`. -/
structure Proc where
  world : World
  /-- the actions so far, oldest first -/
  trace : List Action
  /-- the variable `db` -/
  db : Handle
  /-- the variable `result` of the healthcheck runner (zero value: empty) -/
  result : String
  /-- whether the goroutine is panicking -/
  panicked : Bool
deriving DecidableEq

/-- A process at the start of `main`. -/
def Proc.start (w : World) : Proc :=
  { world := w, trace := [], db := .nil, result := "", panicked := false }

/-- The drivers registered with `database/sql`: every runner imports
`github.com/mattn/go-sqlite3` for its side effect, which registers `sqlite3`. -/
def drivers : List String := ["sqlite3"]

/-- `fmt.Println` joins its operands with single spaces. -/
def spaced : List String → String
  | [] => ""
  | [a] => a
  | a :: b :: rest => a ++ " " ++ spaced (b :: rest)

/-- `fmt.Println(args...)`. -/
def fmtPrintln (args : List String) (p : Proc) : Proc :=
  if p.panicked then p else { p with trace := p.trace ++ [.print (spaced args)] }

/-- `db, _ := sql.Open(driver, path)`: a handle for a registered driver (the
file is not touched), the nil handle and a discarded error otherwise. -/
def sqlOpen (driver path : String) (p : Proc) : Proc :=
  if p.panicked then p
  else if driver ∈ drivers then
    { p with db := .opened, trace := p.trace ++ [.acquire path] }
  else { p with db := .nil }

/-- `db.Exec(sql)` with both results discarded: a refused statement leaves the
store as it was and nothing records the refusal.  On the nil handle the call
panics. -/
def dbExec (sql : String) (p : Proc) : Proc :=
  if p.panicked then p
  else match p.db with
    | .nil => { p with panicked := true }
    | .closed => p
    | .opened =>
      { p with trace := p.trace ++ [.exec sql], world := p.world.apply sql }

/-- `db.QueryRow(sql).Scan(&result)` with the error discarded: `result` takes
the first column of the first row; when the query fails or has no row,
`result` keeps its value. -/
def dbQueryRowScan (sql : String) (p : Proc) : Proc :=
  if p.panicked then p
  else match p.db with
    | .nil => { p with panicked := true }
    | .closed => p
    | .opened =>
      { p with
        trace := p.trace ++ [.query sql]
        result := match p.world.query sql with
                  | .ok (row :: _) => row
                  | .ok [] => p.result
                  | .error _ => p.result }

/-- The deferred `db.Close()`: it runs when `main` returns, and also when it
panics. -/
def dbClose (p : Proc) : Proc :=
  match p.db with
  | .nil => { p with panicked := true }
  | .closed => p
  | .opened => { p with db := .closed, trace := p.trace ++ [.release] }

/-- Exit status of the process: `main` returning gives 0, an unrecovered panic
gives 2; none of the programs calls `os.Exit`. -/
def Proc.exitCode (p : Proc) : Nat := if p.panicked then 2 else 0

/-- The lines on standard output. -/
def Proc.stdout (p : Proc) : List String :=
  p.trace.filterMap (fun a => match a with | .print l => some l | _ => none)

/-- The statement and query texts submitted to the database. -/
def Proc.submitted (p : Proc) : List String :=
  p.trace.filterMap (fun a => match a with
    | .exec s => some s
    | .query s => some s
    | _ => none)

/-- The file every runner opens. -/
def dbPath : String := "/app/data/enron.db"

/-! ### The six one-shot runners (`apps/go_agents/*-agent/main.go`) -/

/-- `analyzer-agent/main.go`. -/
def AnalyzerAgent.main (w : World) : Proc :=
  Proc.start w
    |> fmtPrintln ["📊 Running ANALYZE..."]
    |> sqlOpen "sqlite3" dbPath
    |> dbExec "ANALYZE"
    |> fmtPrintln ["✅ ANALYZE complete."]
    |> dbClose

/-- `cleanup-agent/main.go`. -/
def CleanupAgent.main (w : World) : Proc :=
  Proc.start w
    |> fmtPrintln ["🧹 Running cleanup agent..."]
    |> sqlOpen "sqlite3" dbPath
    |> dbExec "DELETE FROM emails WHERE body IS NULL OR body = \"\""
    |> fmtPrintln ["✅ Cleanup complete."]
    |> dbClose

/-- `healthcheck-agent/main.go`. -/
def HealthcheckAgent.main (w : World) : Proc :=
  let p := Proc.start w
    |> fmtPrintln ["🩺 Performing health check..."]
    |> sqlOpen "sqlite3" dbPath
    |> dbQueryRowScan "PRAGMA integrity_check"
  p |> fmtPrintln ["Health Check:", p.result]
    |> dbClose

/-- `indexing-agent/main.go`. -/
def IndexingAgent.main (w : World) : Proc :=
  Proc.start w
    |> fmtPrintln ["🏗️  Creating indexes..."]
    |> sqlOpen "sqlite3" dbPath
    |> dbExec "CREATE INDEX IF NOT EXISTS idx_user_id ON emails(user)"
    |> dbExec "CREATE INDEX IF NOT EXISTS idx_folder ON emails(folder)"
    |> fmtPrintln ["✅ Indexes created."]
    |> dbClose

/-- `migration-agent/main.go`. -/
def MigrationAgent.main (w : World) : Proc :=
  Proc.start w
    |> fmtPrintln ["🔁 Running migration agent..."]
    |> sqlOpen "sqlite3" dbPath
    |> dbExec "ALTER TABLE emails ADD COLUMN word_count INTEGER"
    |> fmtPrintln ["✅ Column added. Populate logic TBD."]
    |> dbClose

/-- `vacuum-agent/main.go`. -/
def VacuumAgent.main (w : World) : Proc :=
  Proc.start w
    |> fmtPrintln ["🗜️  Vacuuming database..."]
    |> sqlOpen "sqlite3" dbPath
    |> dbExec "VACUUM"
    |> fmtPrintln ["✅ Vacuum complete."]
    |> dbClose

/-- The six one-shot runners. -/
inductive Runner
  | analyzer | cleanup | healthcheck | indexing | migration | vacuum
deriving DecidableEq

/-- The `main` of a runner. -/
def Runner.main : Runner → World → Proc
  | .analyzer => AnalyzerAgent.main
  | .cleanup => CleanupAgent.main
  | .healthcheck => HealthcheckAgent.main
  | .indexing => IndexingAgent.main
  | .migration => MigrationAgent.main
  | .vacuum => VacuumAgent.main

/-- The first line a runner prints. -/
def Runner.startLine : Runner → String
  | .analyzer => "📊 Running ANALYZE..."
  | .cleanup => "🧹 Running cleanup agent..."
  | .healthcheck => "🩺 Performing health check..."
  | .indexing => "🏗️  Creating indexes..."
  | .migration => "🔁 Running migration agent..."
  | .vacuum => "🗜️  Vacuuming database..."

/-- The last line a runner prints; the healthcheck runner has no fixed one, its
last line carries the result of the check. -/
def Runner.doneLine : Runner → Option String
  | .analyzer => some "✅ ANALYZE complete."
  | .cleanup => some "✅ Cleanup complete."
  | .healthcheck => none
  | .indexing => some "✅ Indexes created."
  | .migration => some "✅ Column added. Populate logic TBD."
  | .vacuum => some "✅ Vacuum complete."

/-! ## The daemon (`apps/go_agents/agent-daemon/main.go`) -/

/-- `time.Nanosecond`: a `time.Duration` counts nanoseconds. -/
def Nanosecond : Nat := 1

/-- `time.Second`. -/
def Second : Nat := 1000000000 * Nanosecond

/-- `time.Minute`. -/
def Minute : Nat := 60 * Second

/-- `time.Hour`. -/
def Hour : Nat := 60 * Minute

/-- A statement of a loop body: what the six loops could be made of.  A comment
is not a statement: the `TODO` lines of the source leave nothing here. -/
inductive LoopStmt
  /-- `log.Println(msg)` -/
  | logPrintln (msg : String)
  /-- `time.Sleep(d)` -/
  | timeSleep (d : Nat)
  /-- `db.Exec(sql)`, a maintenance operation -/
  | dbExec (sql : String)
deriving DecidableEq

/-- Body of the `for` loop of `runSummarizerAgent`. -/
def runSummarizerAgent : List LoopStmt :=
  [.logPrintln "🧠 [Summarizer] Checking for emails to summarize...", .timeSleep (1 * Minute)]

/-- Body of the `for` loop of `runClassifierAgent`. -/
def runClassifierAgent : List LoopStmt :=
  [.logPrintln "🧠 [Classifier] Checking for unclassified emails...", .timeSleep (1 * Minute)]

/-- Body of the `for` loop of `runCleanupAgent`. -/
def runCleanupAgent : List LoopStmt :=
  [.logPrintln "🧹 [Cleanup] Deleting broken or empty emails...", .timeSleep (10 * Minute)]

/-- Body of the `for` loop of `runVacuumAgent`. -/
def runVacuumAgent : List LoopStmt :=
  [.logPrintln "🗜️ [Vacuum] Running DB vacuum...", .timeSleep (1 * Hour)]

/-- Body of the `for` loop of `runHealthcheckAgent`. -/
def runHealthcheckAgent : List LoopStmt :=
  [.logPrintln "🩺 [Healthcheck] Running integrity check...", .timeSleep (30 * Minute)]

/-- Body of the `for` loop of `runMetricsAgent`. -/
def runMetricsAgent : List LoopStmt :=
  [.logPrintln "📈 [Metrics] Collecting usage statistics...", .timeSleep (5 * Minute)]

/-- The six loop functions of the daemon. -/
inductive Agent
  | summarizer | classifier | cleanup | vacuum | healthcheck | metrics
deriving DecidableEq

/-- The loop body of an agent. -/
def Agent.body : Agent → List LoopStmt
  | .summarizer => runSummarizerAgent
  | .classifier => runClassifierAgent
  | .cleanup => runCleanupAgent
  | .vacuum => runVacuumAgent
  | .healthcheck => runHealthcheckAgent
  | .metrics => runMetricsAgent

/-- Whether a statement is a maintenance operation on the database. -/
def LoopStmt.isOperation : LoopStmt → Bool
  | .dbExec _ => true
  | _ => false

/-- Whether a statement suspends the goroutine. -/
def LoopStmt.isSleep : LoopStmt → Bool
  | .timeSleep _ => true
  | _ => false

/-- The two states of a loop. -/
inductive Phase
  /-- the goroutine is suspended in `time.Sleep` -/
  | waiting
  /-- the goroutine is executing the other statements of the body -/
  | running
deriving DecidableEq

/-- A goroutine running an endless `for` loop is described by the statements
left in the current iteration. -/
abbrev LoopState := List LoopStmt

/-- One step of an endless `for` loop over `body`: the next statement is
executed; after the last statement of the body the loop starts over, there
being no condition, `break` or `return`.  `none` means the goroutine has
nothing left to do. -/
def loopStep (body : List LoopStmt) : LoopState → Option (LoopStmt × LoopState)
  | [] => none
  | s :: rest => some (s, if rest.isEmpty then body else rest)

/-- The state a loop is in: waiting when its next statement is the sleep. -/
def phase : LoopState → Phase
  | s :: _ => if s.isSleep then .waiting else .running
  | [] => .running

/-- The states a loop over `body` can reach from its start. -/
inductive LoopReachable (body : List LoopStmt) : LoopState → Prop
  | start : LoopReachable body body
  | step {s s' : LoopState} {e : LoopStmt} :
      LoopReachable body s → loopStep body s = some (e, s') → LoopReachable body s'

/-- The statements a loop executes in its first `n` steps. -/
def loopTrace (body : List LoopStmt) : Nat → LoopState → List LoopStmt
  | 0, _ => []
  | n + 1, s =>
    match loopStep body s with
    | none => []
    | some (e, s') => e :: loopTrace body n s'

/-- A statement of the daemon's `main`. -/
inductive MainStmt
  /-- `log.Println(msg)` -/
  | logPrintln (msg : String)
  /-- `go f()` for one of the loop functions -/
  | go (a : Agent)
  /-- the `select` without cases at the end of `main`, which blocks forever -/
  | selectEmpty
deriving DecidableEq

/-- The statements of the daemon's `main`, in order. -/
def AgentDaemon.main : List MainStmt :=
  [ .logPrintln "👑 Unified Go Agent Daemon starting...",
    .go .summarizer,
    .go .classifier,
    .go .cleanup,
    .go .vacuum,
    .go .healthcheck,
    .go .metrics,
    .selectEmpty ]

/-- State of the daemon process as far as `main` drives it. -/
structure Daemon where
  /-- the statements `main` has still to execute; none left: `main` has
  returned and the process has exited -/
  main : List MainStmt
  /-- the goroutines launched so far, oldest first -/
  spawned : List Agent
  /-- the lines logged by `main` -/
  logged : List String
deriving DecidableEq

/-- The daemon when `main` is entered. -/
def Daemon.start : Daemon := { main := AgentDaemon.main, spawned := [], logged := [] }

/-- Whether `main` has returned. -/
def Daemon.returned (d : Daemon) : Bool := d.main.isEmpty

/-- One step of `main`.  On the empty `select` the goroutine stays where it
is. -/
def Daemon.step (d : Daemon) : Daemon :=
  match d.main with
  | [] => d
  | .logPrintln msg :: rest => { d with main := rest, logged := d.logged ++ [msg] }
  | .go a :: rest => { d with main := rest, spawned := d.spawned ++ [a] }
  | .selectEmpty :: _ => d

/-- The daemon after `n` steps of `main`. -/
def Daemon.after : Nat → Daemon
  | 0 => Daemon.start
  | n + 1 => (Daemon.after n).step

/-! ## Vocabulary of the properties -/

/-- Whether a value is neither `NULL` nor the empty text: a non-empty text, a
number or a BLOB. -/
def hasBody : Value → Bool
  | .null => false
  | .text s => s != ""
  | _ => true

/-- Whether `emails`, if the file has it, is an ordinary table without a
`DELETE` trigger. -/
def Db.untriggered (db : Db) : Bool :=
  match db.emails with
  | none => true
  | some t => t.kind == .ordinary && t.onDelete.isNone

/-- Whether the store has an index called `name` on `emails(col)`. -/
def hasIndexOn (db : Db) (name col : String) : Bool :=
  db.indexes.any (fun ix =>
    sameName ix.name name && sameName ix.table "emails" && sameName ix.column col)

/-- Whether some table or view other than an index carries the name. -/
def tableNamed (db : Db) (name : String) : Bool :=
  sameName "emails" name || db.otherTables.any (fun n => sameName n name)

/-- The indexing runner with its two statements in the other order. -/
def IndexingAgent.mainSwapped (w : World) : Proc :=
  Proc.start w
    |> fmtPrintln ["🏗️  Creating indexes..."]
    |> sqlOpen "sqlite3" dbPath
    |> dbExec "CREATE INDEX IF NOT EXISTS idx_folder ON emails(folder)"
    |> dbExec "CREATE INDEX IF NOT EXISTS idx_user_id ON emails(user)"
    |> fmtPrintln ["✅ Indexes created."]
    |> dbClose

/-- The statements of the operation table of the specification (section 4.2),
per task. -/
def specStatements : Runner → List String
  | .analyzer => ["ANALYZE"]
  | .cleanup => ["DELETE FROM emails WHERE body IS NULL OR body = ''"]
  | .healthcheck => ["PRAGMA integrity_check"]
  | .indexing => ["CREATE INDEX IF NOT EXISTS idx_user_id ON emails(user)",
                  "CREATE INDEX IF NOT EXISTS idx_folder ON emails(folder)"]
  | .migration => ["ALTER TABLE emails ADD COLUMN word_count INTEGER"]
  | .vacuum => ["VACUUM"]

/-- The database calls of a runner, as actions. -/
def Runner.operation : Runner → List Action
  | .analyzer => [.exec "ANALYZE"]
  | .cleanup => [.exec "DELETE FROM emails WHERE body IS NULL OR body = \"\""]
  | .healthcheck => [.query "PRAGMA integrity_check"]
  | .indexing => [.exec "CREATE INDEX IF NOT EXISTS idx_user_id ON emails(user)",
                  .exec "CREATE INDEX IF NOT EXISTS idx_folder ON emails(folder)"]
  | .migration => [.exec "ALTER TABLE emails ADD COLUMN word_count INTEGER"]
  | .vacuum => [.exec "VACUUM"]

/-- The step order of section 4.3 of the specification, read as a sequence:
acquire, starting message, operation, completion message, release. -/
def specOrder (r : Runner) (done : String) : List Action :=
  [.acquire dbPath, .print r.startLine] ++ r.operation ++ [.print done, .release]

/-- A structurally valid file that can be used. -/
def World.valid (w : World) : Bool := w.reachable && w.problems.isEmpty

/-- A corrupted file: the check reports problems, or the query itself fails. -/
def World.corrupted (w : World) : Bool := !w.reachable || !w.problems.isEmpty

/-- Whether a loop body is a log line followed by a sleep and nothing else. -/
def logAndSleepOnly : List LoopStmt → Bool
  | [.logPrintln _, .timeSleep _] => true
  | _ => false

/-- The loops `main` launches, in order. -/
def launched : List Agent :=
  AgentDaemon.main.filterMap (fun s => match s with | .go a => some a | _ => none)

/-- The reference interval of each loop, in minutes (section 4.4 of the
specification). -/
def specMinutes : Agent → Nat
  | .summarizer => 1
  | .classifier => 1
  | .cleanup => 10
  | .vacuum => 60
  | .healthcheck => 30
  | .metrics => 5

/-- Whether `CREATE INDEX IF NOT EXISTS name ON emails(col)` adds an index to
the store: `emails` is an ordinary table, no table has the name, no index has
the name and the column exists. -/
def addsIndex (name col : String) (db : Db) : Bool :=
  match db.emails with
  | none => false
  | some t =>
    t.kind == .ordinary && !tableNamed db name
      && !db.indexes.any (fun ix => sameName ix.name name) && hasColumn t.columns col

/-- The store after `CREATE INDEX IF NOT EXISTS name ON emails(col)` with the
outcome thrown away. -/
def Db.withIndex (db : Db) (name col : String) : Db :=
  match createIndexIfNotExists name col db with
  | .ok d => d
  | .error _ => db

/-- The store after a statement with the outcome thrown away. -/
def Db.after (db : Db) (s : Stmt) : Db :=
  match execStmt s db with
  | .ok d => d
  | .error _ => db

/-- A usable file has its store changed by `f`; an unusable one stays as it
is. -/
def World.applyDb (w : World) (f : Db → Db) : World :=
  if w.reachable then { w with db := f w.db } else w

/-- Two stores with the same tables, statistics and free space and the same
indexes, the order in which the indexes are listed apart. -/
def Db.sameContent (a b : Db) : Prop :=
  a.emails = b.emails ∧ a.otherTables = b.otherTables ∧ a.statsFrom = b.statsFrom
    ∧ a.freeSlots = b.freeSlots ∧ a.indexes.Perm b.indexes

/-! ### Example files -/

/-- An ordinary table without trigger whose records pass its constraints. -/
def Table.plain (columns : List Column) (rows : List Row) : Table :=
  { columns := columns, rows := rows, kind := .ordinary, onDelete := none, violations := false }

/-- A store with the given `emails` and nothing else. -/
def Db.only (t : Table) : Db :=
  { emails := some t, otherTables := [], indexes := [], statsFrom := none, freeSlots := 0 }

/-- A table with one record of empty body and one of non-empty body, in a
usable file:
`CREATE TABLE emails(id INTEGER, body TEXT)` with `(1, '')` and `(2, 'hello')`. -/
def twoMails : World :=
  { reachable := true
    db := Db.only (Table.plain [⟨"id", "INTEGER", .binary⟩, ⟨"body", "TEXT", .binary⟩]
            [[.integer 1, .text ""], [.integer 2, .text "hello"]])
    problems := [] }

/-- A table with a column whose name is the empty string:
`CREATE TABLE emails("" TEXT, body TEXT)` with `('z', '')` and `('z', 'z')`. -/
def emptyNamed : World :=
  { reachable := true
    db := Db.only (Table.plain [⟨"", "TEXT", .binary⟩, ⟨"body", "TEXT", .binary⟩]
            [[.text "z", .text ""], [.text "z", .text "z"]])
    problems := [] }

/-- A table whose body compares with `RTRIM`:
`CREATE TABLE emails(id INTEGER, body TEXT COLLATE RTRIM)` with `(1, '   ')`. -/
def blankBody : World :=
  { reachable := true
    db := Db.only (Table.plain [⟨"id", "INTEGER", .binary⟩, ⟨"body", "TEXT", .rtrim⟩]
            [[.integer 1, .text "   "]])
    problems := [] }

/-- A table with bodies that are not texts:
`CREATE TABLE emails(id INTEGER, body)` with `(1, x'')` and `(2, 0)`. -/
def blobBody : World :=
  { reachable := true
    db := Db.only (Table.plain [⟨"id", "INTEGER", .binary⟩, ⟨"body", "", .binary⟩]
            [[.integer 1, .blob []], [.integer 2, .integer 0]])
    problems := [] }

/-- The two-record table with the trigger
`CREATE TRIGGER keep BEFORE DELETE ON emails BEGIN SELECT RAISE(IGNORE); END`. -/
def guarded : World :=
  { reachable := true
    db := Db.only
      { columns := [⟨"id", "TEXT", .binary⟩, ⟨"body", "TEXT", .binary⟩]
        rows := [[.text "1", .text ""], [.text "2", .text "hello"]]
        kind := .ordinary, onDelete := some .raiseIgnore, violations := false }
    problems := [] }

/-- The table `CREATE TABLE emails(id TEXT, body TEXT)` with `('1', '')` and
`('2', 'hello')` and the trigger
`CREATE TRIGGER regrow AFTER DELETE ON emails BEGIN
INSERT INTO emails VALUES('a', ''); INSERT INTO emails VALUES('b', ''); END`. -/
def regrowing : World :=
  { reachable := true
    db := Db.only
      { columns := [⟨"id", "TEXT", .binary⟩, ⟨"body", "TEXT", .binary⟩]
        rows := [[.text "1", .text ""], [.text "2", .text "hello"]]
        kind := .ordinary
        onDelete := some (.insertRows [[.text "a", .text ""], [.text "b", .text ""]])
        violations := false }
    problems := [] }

/-- A full-text virtual table:
`CREATE VIRTUAL TABLE emails USING fts4(user, folder, body)`, no record. -/
def fullText : World :=
  { reachable := true
    db := Db.only
      { columns := [⟨"user", "", .binary⟩, ⟨"folder", "", .binary⟩, ⟨"body", "", .binary⟩]
        rows := [], kind := .virtual, onDelete := none, violations := false }
    problems := [] }

/-- A usable file whose `emails` table has the columns `user` and `folder` and
in which the name `idx_user_id` is already taken by an index on
`emails(folder)`. -/
def nameTaken : World :=
  { reachable := true
    db := { emails := some (Table.plain
              [⟨"id", "INTEGER", .binary⟩, ⟨"user", "TEXT", .binary⟩,
               ⟨"folder", "TEXT", .binary⟩, ⟨"body", "TEXT", .binary⟩] [])
            otherTables := []
            indexes := [⟨"idx_user_id", "emails", "folder"⟩]
            statsFrom := none, freeSlots := 0 }
    problems := [] }

/-- A usable file whose `emails` table has the columns `user` and `folder` and
no index yet. -/
def noIndexYet : World :=
  { reachable := true
    db := Db.only (Table.plain
            [⟨"id", "INTEGER", .binary⟩, ⟨"user", "TEXT", .binary⟩,
             ⟨"folder", "TEXT", .binary⟩, ⟨"body", "TEXT", .binary⟩]
            [[.integer 1, .text "lay-k", .text "inbox", .text "hello"]])
    problems := [] }

/-- A file that cannot be used: every statement and query on it fails. -/
def unusable : World :=
  { reachable := false
    db := { emails := none, otherTables := [], indexes := [], statsFrom := none, freeSlots := 0 }
    problems := [] }

/-- A usable file on which the integrity check reports two problems. -/
def damaged : World :=
  { reachable := true
    db := { emails := none, otherTables := [], indexes := [], statsFrom := none, freeSlots := 0 }
    problems := ["*** in database main ***\nPage 3 is never used",
                 "row 1 missing from index idx_folder"] }

/-! ## What a run of each runner amounts to -/

theorem analyzer_run (w : World) :
    AnalyzerAgent.main w =
      { world := w.apply "ANALYZE"
        trace := .print (Runner.startLine .analyzer) :: .acquire dbPath
          :: (Runner.operation .analyzer ++ [.print "✅ ANALYZE complete.", .release])
        db := .closed, result := "", panicked := false } := by
  simp [AnalyzerAgent.main, fmtPrintln, sqlOpen, dbExec, dbClose, Proc.start, drivers, spaced,
    Runner.startLine, Runner.operation]

theorem cleanup_run (w : World) :
    CleanupAgent.main w =
      { world := w.apply "DELETE FROM emails WHERE body IS NULL OR body = \"\""
        trace := .print (Runner.startLine .cleanup) :: .acquire dbPath
          :: (Runner.operation .cleanup ++ [.print "✅ Cleanup complete.", .release])
        db := .closed, result := "", panicked := false } := by
  simp [CleanupAgent.main, fmtPrintln, sqlOpen, dbExec, dbClose, Proc.start, drivers, spaced,
    Runner.startLine, Runner.operation]

theorem indexing_run (w : World) :
    IndexingAgent.main w =
      { world := (w.apply "CREATE INDEX IF NOT EXISTS idx_user_id ON emails(user)").apply
          "CREATE INDEX IF NOT EXISTS idx_folder ON emails(folder)"
        trace := .print (Runner.startLine .indexing) :: .acquire dbPath
          :: (Runner.operation .indexing ++ [.print "✅ Indexes created.", .release])
        db := .closed, result := "", panicked := false } := by
  simp [IndexingAgent.main, fmtPrintln, sqlOpen, dbExec, dbClose, Proc.start, drivers, spaced,
    Runner.startLine, Runner.operation]

theorem indexing_swapped_run (w : World) :
    (IndexingAgent.mainSwapped w).world =
      (w.apply "CREATE INDEX IF NOT EXISTS idx_folder ON emails(folder)").apply
        "CREATE INDEX IF NOT EXISTS idx_user_id ON emails(user)" := by
  simp [IndexingAgent.mainSwapped, fmtPrintln, sqlOpen, dbExec, dbClose, Proc.start, drivers]

theorem migration_run (w : World) :
    MigrationAgent.main w =
      { world := w.apply "ALTER TABLE emails ADD COLUMN word_count INTEGER"
        trace := .print (Runner.startLine .migration) :: .acquire dbPath
          :: (Runner.operation .migration
                ++ [.print "✅ Column added. Populate logic TBD.", .release])
        db := .closed, result := "", panicked := false } := by
  simp [MigrationAgent.main, fmtPrintln, sqlOpen, dbExec, dbClose, Proc.start, drivers, spaced,
    Runner.startLine, Runner.operation]

theorem vacuum_run (w : World) :
    VacuumAgent.main w =
      { world := w.apply "VACUUM"
        trace := .print (Runner.startLine .vacuum) :: .acquire dbPath
          :: (Runner.operation .vacuum ++ [.print "✅ Vacuum complete.", .release])
        db := .closed, result := "", panicked := false } := by
  simp [VacuumAgent.main, fmtPrintln, sqlOpen, dbExec, dbClose, Proc.start, drivers, spaced,
    Runner.startLine, Runner.operation]

/-- The value `result` holds after the scan of the integrity check. -/
theorem healthcheck_result (w : World) :
    (HealthcheckAgent.main w).result
      = if w.reachable then (match w.problems with | [] => "ok" | m :: _ => m) else "" := by
  cases hr : w.reachable <;> cases hp : w.problems <;>
    simp [HealthcheckAgent.main, fmtPrintln, sqlOpen, dbQueryRowScan, dbClose, Proc.start,
      drivers, World.query, integrityRows, parse, hr, hp]

theorem healthcheck_run (w : World) :
    HealthcheckAgent.main w =
      { world := w
        trace := .print (Runner.startLine .healthcheck) :: .acquire dbPath
          :: (Runner.operation .healthcheck
                ++ [.print ("Health Check: " ++ (HealthcheckAgent.main w).result), .release])
        db := .closed
        result := (HealthcheckAgent.main w).result
        panicked := false } := by
  have h : ("Health Check:" : String) ++ " " = "Health Check: " := by decide
  simp [HealthcheckAgent.main, fmtPrintln, sqlOpen, dbQueryRowScan, dbClose, Proc.start,
    drivers, spaced, Runner.startLine, Runner.operation, ← h, String.append_assoc]

/-! ## Statement texts the engine recognises -/

theorem parse_cleanup :
    parse "DELETE FROM emails WHERE body IS NULL OR body = \"\""
      = some (.deleteNullOrEq "body" (.quoted "")) := by
  decide

theorem parse_cleanup_single :
    parse "DELETE FROM emails WHERE body IS NULL OR body = ''"
      = some (.deleteNullOrEq "body" (.literal "")) := by
  decide

theorem parse_analyze : parse "ANALYZE" = some .analyze := by decide

theorem parse_vacuum : parse "VACUUM" = some .vacuum := by decide

theorem parse_index_user :
    parse "CREATE INDEX IF NOT EXISTS idx_user_id ON emails(user)"
      = some (.createIndexIfNotExists "idx_user_id" "user") := by
  decide

theorem parse_index_folder :
    parse "CREATE INDEX IF NOT EXISTS idx_folder ON emails(folder)"
      = some (.createIndexIfNotExists "idx_folder" "folder") := by
  decide

theorem sameName_self (a : String) : sameName a a = true := by
  simp [sameName]

theorem valid_reachable (w : World) (h : w.valid = true) : w.reachable = true := by
  simp only [World.valid, Bool.and_eq_true] at h
  exact h.1

/-! ## Cleanup -/

theorem key_empty (c : Collation) (hc : c ≠ .rtrim) (s : String) :
    (c.key s == c.key "") = (s == "") := by
  obtain ⟨data⟩ := s
  cases c with
  | rtrim => exact absurd rfl hc
  | binary =>
    cases data with
    | nil => rfl
    | cons a as =>
      have h1 : ((⟨a :: as⟩ : String) == "") = false := by
        simp [String.ext_iff]
      rw [h1]
      simp [Collation.key, String.toList]
  | nocase =>
    cases data with
    | nil => rfl
    | cons a as =>
      have h1 : ((⟨a :: as⟩ : String) == "") = false := by
        simp [String.ext_iff]
      rw [h1]
      simp [Collation.key, String.toList]

theorem selected_quoted_empty (cols : List Column) (i : Nat) (r : Row)
    (hc : collationAt cols i ≠ .rtrim) (hq : colIndex cols "" = none) :
    (!selected cols i (.quoted "") r) = hasBody (field r i) := by
  simp only [selected, Operand.eval, hq]
  cases h : field r i with
  | null => simp [sqlOr, sqlIsNull, sqlEq, hasBody]
  | integer n => simp [sqlOr, sqlIsNull, sqlEq, hasBody]
  | real b => simp [sqlOr, sqlIsNull, sqlEq, hasBody]
  | blob b => simp [sqlOr, sqlIsNull, sqlEq, hasBody]
  | text s =>
    simp only [sqlIsNull, sqlEq, key_empty _ hc, hasBody]
    by_cases hs : s = ""
    · simp [sqlOr, hs]
    · have hb : (s == "") = false := by simpa using hs
      simp [sqlOr, hs, hb]

/-- Counterexample to C1 as stated, on the table
`CREATE TABLE emails("" TEXT, body TEXT)` with the records `('z', '')` and
`('z', 'z')`: the double-quoted empty token of the program's statement is the
column with the empty name, so the record with the empty body stays and the
record with the non-empty body `z` is deleted. -/
theorem cleanup_empty_named_column :
    emptyNamed.valid = true
      ∧ emptyNamed.db.emails
          = some (Table.plain [⟨"", "TEXT", .binary⟩, ⟨"body", "TEXT", .binary⟩]
              [[.text "z", .text ""], [.text "z", .text "z"]])
      ∧ (CleanupAgent.main emptyNamed).world.db.emails
          = some (Table.plain [⟨"", "TEXT", .binary⟩, ⟨"body", "TEXT", .binary⟩]
              [[.text "z", .text ""]]) := by
  decide

/-- Under `RTRIM` a body of three blanks equals the empty string and is
deleted. -/
theorem cleanup_rtrim_deletes_blank :
    (CleanupAgent.main blankBody).world.db.emails
      = some (Table.plain [⟨"id", "INTEGER", .binary⟩, ⟨"body", "TEXT", .rtrim⟩] []) := by
  decide

/-- An empty BLOB and a number are not strings and are not deleted. -/
theorem cleanup_keeps_blob_and_number :
    (CleanupAgent.main blobBody).world.db.emails = blobBody.db.emails := by
  decide

/-- With a `RAISE(IGNORE)` trigger the record with the empty body stays. -/
theorem cleanup_skipped_by_trigger :
    (CleanupAgent.main guarded).world.db.emails = guarded.db.emails := by
  decide

/-- Claim C1, amended: on a usable, structurally valid file in which `emails`
is an ordinary table without `DELETE` trigger, with a `body` column whose
collating sequence is `BINARY` or `NOCASE` (not `RTRIM`) and with no column
whose name is the empty string, the cleanup runner leaves exactly the records of the original table
whose body is neither `NULL` nor the empty string, in their order and
multiplicity and unchanged; no remaining record has a `NULL` or empty-string
body; the columns, the other tables, the indexes and the statistics are
untouched. -/
theorem cleanup_keeps_exactly_nonempty_bodies (w : World) (t : Table) (i : Nat)
    (hvalid : w.valid = true) (htab : w.db.emails = some t)
    (hkind : t.kind = .ordinary) (htrig : t.onDelete = none)
    (hbody : colIndex t.columns "body" = some i)
    (hcoll : collationAt t.columns i ≠ .rtrim)
    (hquoted : colIndex t.columns "" = none) :
    (CleanupAgent.main w).world.db.emails
        = some { t with rows := t.rows.filter (fun r => hasBody (field r i)) }
      ∧ (∀ t', (CleanupAgent.main w).world.db.emails = some t' →
          ∀ r ∈ t'.rows, field r i ≠ .null ∧ field r i ≠ .text "")
      ∧ (CleanupAgent.main w).world.db.otherTables = w.db.otherTables
      ∧ (CleanupAgent.main w).world.db.indexes = w.db.indexes
      ∧ (CleanupAgent.main w).world.db.statsFrom = w.db.statsFrom := by
  have hreach := valid_reachable w hvalid
  have hrun : w.run "DELETE FROM emails WHERE body IS NULL OR body = \"\""
      = .ok { w.db with
              emails := some { t with rows := t.rows.filter (fun r => hasBody (field r i)) }
              freeSlots := w.db.freeSlots + (t.rows.length
                - (t.rows.filter (fun r => hasBody (field r i))).length) } := by
    simp only [World.run, hreach, parse_cleanup, execStmt, deleteNullOrEq, htab, hbody,
      selected_quoted_empty _ _ _ hcoll hquoted, hkind, htrig]
    rfl
  rw [cleanup_run]
  simp only [World.apply, hrun]
  refine ⟨by trivial, ?_, by trivial, by trivial, by trivial⟩
  intro t' ht' r hr
  simp only [Option.some.injEq] at ht'
  subst ht'
  simp only [List.mem_filter] at hr
  obtain ⟨_, hne⟩ := hr
  cases hf : field r i with
  | null => simp [hf, hasBody] at hne
  | text s =>
    rw [hf] at hne
    simp [hasBody] at hne
    simp [hne]
  | integer n => simp
  | real b => simp
  | blob b => simp

/-- Witness for C1: the table with one empty-body record and one non-empty-body
record ends with exactly one record, the non-empty one. -/
theorem cleanup_keeps_exactly_nonempty_bodies_witness :
    (CleanupAgent.main twoMails).world.db.emails
        = some (Table.plain [⟨"id", "INTEGER", .binary⟩, ⟨"body", "TEXT", .binary⟩]
            [[.integer 2, .text "hello"]]) :=
  (cleanup_keeps_exactly_nonempty_bodies twoMails
    (Table.plain [⟨"id", "INTEGER", .binary⟩, ⟨"body", "TEXT", .binary⟩]
      [[.integer 1, .text ""], [.integer 2, .text "hello"]]) 1
    (by decide) (by decide) (by decide) (by decide) (by decide) (by decide)
    (by decide)).1.trans (by decide)

/-! ## Index creation -/

theorem withIndex_eq (db : Db) (n c : String) :
    db.withIndex n c =
      if addsIndex n c db then { db with indexes := db.indexes ++ [⟨n, "emails", c⟩] }
      else db := by
  unfold Db.withIndex createIndexIfNotExists addsIndex tableNamed
  cases db.emails with
  | none => simp
  | some t =>
    cases hk : t.kind
    case view => simp [hk]
    case virtual => simp [hk]
    by_cases h1 : (sameName "emails" n || db.otherTables.any (fun m => sameName m n)) = true
    · simp [h1, hk]
    · by_cases h2 : db.indexes.any (fun ix => sameName ix.name n) = true
      · simp [h1, h2, hk]
      · by_cases h3 : hasColumn t.columns c = true
        · simp [h1, h2, h3, hk]
        · simp [h1, h2, h3, hk]

theorem addsIndex_withIndex_self (db : Db) (n c : String) :
    addsIndex n c (db.withIndex n c) = false := by
  rw [withIndex_eq]
  by_cases h : addsIndex n c db = true
  · simp only [h, if_true]
    unfold addsIndex
    cases db.emails with
    | none => rfl
    | some t => simp [sameName_self]
  · simp only [h]
    simpa using h

theorem addsIndex_withIndex_other (db : Db) (n c m d : String) (hnm : sameName m n = false) :
    addsIndex n c (db.withIndex m d) = addsIndex n c db := by
  rw [withIndex_eq]
  by_cases h : addsIndex m d db = true
  · simp only [h, if_true]
    unfold addsIndex tableNamed
    cases db.emails with
    | none => rfl
    | some t => simp [hnm]
  · simp only [h]
    rfl

theorem withIndex_idem (db : Db) (n c : String) :
    (db.withIndex n c).withIndex n c = db.withIndex n c := by
  conv_lhs => rw [withIndex_eq]
  simp [addsIndex_withIndex_self]

theorem user_ne_folder : sameName "idx_user_id" "idx_folder" = false := by decide

theorem folder_ne_user : sameName "idx_folder" "idx_user_id" = false := by decide

/-- Both statements of the indexing runner, applied to a store that already
went through both, change nothing. -/
theorem withIndex_twice (db : Db) :
    ((((db.withIndex "idx_user_id" "user").withIndex "idx_folder" "folder").withIndex
        "idx_user_id" "user").withIndex "idx_folder" "folder")
      = (db.withIndex "idx_user_id" "user").withIndex "idx_folder" "folder" := by
  have h1 : (((db.withIndex "idx_user_id" "user").withIndex "idx_folder" "folder").withIndex
        "idx_user_id" "user")
      = (db.withIndex "idx_user_id" "user").withIndex "idx_folder" "folder" := by
    conv_lhs => rw [withIndex_eq]
    rw [addsIndex_withIndex_other _ _ _ _ _ folder_ne_user, addsIndex_withIndex_self]
    simp
  rw [h1, withIndex_idem]

theorem apply_eq (w : World) (sql : String) (s : Stmt) (hp : parse sql = some s) :
    w.apply sql = w.applyDb (fun db => db.after s) := by
  obtain ⟨reach, db, probs⟩ := w
  cases reach
  · simp [World.apply, World.run, World.applyDb]
  · simp only [World.apply, World.run, World.applyDb, hp, Db.after, if_true]
    cases execStmt s db <;> rfl

theorem applyDb_idem (w : World) (f : Db → Db) (hf : f (f w.db) = f w.db) :
    (w.applyDb f).applyDb f = w.applyDb f := by
  obtain ⟨reach, db, probs⟩ := w
  cases reach
  · simp [World.applyDb]
  · simp [World.applyDb, hf]

theorem applyDb_applyDb (w : World) (f g : Db → Db) :
    (w.applyDb f).applyDb g = w.applyDb (fun db => g (f db)) := by
  obtain ⟨reach, db, probs⟩ := w
  cases reach
  · simp [World.applyDb]
  · simp [World.applyDb]

theorem after_createIndex (db : Db) (n c : String) :
    db.after (.createIndexIfNotExists n c) = db.withIndex n c := rfl

/-! ## Indexing -/

theorem withIndex_emails (db : Db) (n c : String) : (db.withIndex n c).emails = db.emails := by
  rw [withIndex_eq]; split <;> rfl

theorem withIndex_otherTables (db : Db) (n c : String) :
    (db.withIndex n c).otherTables = db.otherTables := by
  rw [withIndex_eq]; split <;> rfl

theorem withIndex_statsFrom (db : Db) (n c : String) : (db.withIndex n c).statsFrom = db.statsFrom := by
  rw [withIndex_eq]; split <;> rfl

theorem withIndex_freeSlots (db : Db) (n c : String) :
    (db.withIndex n c).freeSlots = db.freeSlots := by
  rw [withIndex_eq]; split <;> rfl

theorem mem_withIndex (db : Db) (n c : String) (ix : Index) (h : ix ∈ db.indexes) :
    ix ∈ (db.withIndex n c).indexes := by
  rw [withIndex_eq]
  split
  · simp [h]
  · exact h

theorem mem_withIndex_inv (db : Db) (n c : String) (ix : Index)
    (h : ix ∈ (db.withIndex n c).indexes) : ix ∈ db.indexes ∨ ix = ⟨n, "emails", c⟩ := by
  rw [withIndex_eq] at h
  split at h
  · simpa using h
  · exact Or.inl h

theorem hasIndexOn_mono (db : Db) (n c m d : String) (h : hasIndexOn db n c = true) :
    hasIndexOn (db.withIndex m d) n c = true := by
  simp only [hasIndexOn, List.any_eq_true] at h ⊢
  obtain ⟨ix, hix, hp⟩ := h
  exact ⟨ix, mem_withIndex db m d ix hix, hp⟩

theorem hasIndexOn_withIndex (db : Db) (t : Table) (n c : String)
    (htab : db.emails = some t) (hkind : t.kind = .ordinary)
    (hcol : hasColumn t.columns c = true)
    (htn : tableNamed db n = false)
    (hix : ∀ ix ∈ db.indexes, sameName ix.name n = true →
      sameName ix.table "emails" = true ∧ sameName ix.column c = true) :
    hasIndexOn (db.withIndex n c) n c = true := by
  rw [withIndex_eq]
  by_cases hany : db.indexes.any (fun ix => sameName ix.name n) = true
  · have hadd : addsIndex n c db = false := by
      simp [addsIndex, htab, hany]
    simp only [hadd]
    simp only [List.any_eq_true] at hany
    obtain ⟨ix, hmem, hname⟩ := hany
    obtain ⟨h1, h2⟩ := hix ix hmem hname
    simp only [hasIndexOn, List.any_eq_true]
    exact ⟨ix, hmem, by simp [hname, h1, h2]⟩
  · have hadd : addsIndex n c db = true := by
      simp only [Bool.not_eq_true] at hany
      simp [addsIndex, htab, hany, htn, hcol, hkind]
    simp only [hadd, if_true]
    simp [hasIndexOn, sameName_self]

theorem withIndex_comm (db : Db) (n c m d : String)
    (hnm : sameName n m = false) (hmn : sameName m n = false) :
    ((db.withIndex m d).withIndex n c).sameContent ((db.withIndex n c).withIndex m d) := by
  refine ⟨?_, ?_, ?_, ?_, ?_⟩
  · simp only [withIndex_emails]
  · simp only [withIndex_otherTables]
  · simp only [withIndex_statsFrom]
  · simp only [withIndex_freeSlots]
  · rw [withIndex_eq (db.withIndex m d), withIndex_eq (db.withIndex n c),
      addsIndex_withIndex_other _ _ _ _ _ hmn, addsIndex_withIndex_other _ _ _ _ _ hnm,
      withIndex_eq db m d, withIndex_eq db n c]
    cases addsIndex n c db <;> cases addsIndex m d db <;> simp
    exact List.Perm.append_left _ (List.Perm.swap _ _ _)

/-! ## Migration -/

theorem after_analyze_idem (db : Db) : (db.after .analyze).after .analyze = db.after .analyze :=
  rfl

theorem after_vacuum_idem (db : Db) : (db.after .vacuum).after .vacuum = db.after .vacuum :=
  rfl

theorem after_cleanup_idem (db : Db) (rhs : Operand) (h : db.untriggered = true) :
    (db.after (.deleteNullOrEq "body" rhs)).after (.deleteNullOrEq "body" rhs)
      = db.after (.deleteNullOrEq "body" rhs) := by
  obtain ⟨emails, others, ixs, stats, free⟩ := db
  cases emails with
  | none => simp [Db.after, execStmt, deleteNullOrEq]
  | some t =>
    simp only [Db.untriggered, Bool.and_eq_true, beq_iff_eq, Option.isNone_iff_eq_none] at h
    obtain ⟨hk, ht⟩ := h
    cases hc : colIndex t.columns "body" with
    | none => simp [Db.after, execStmt, deleteNullOrEq, hc, hk, ht]
    | some i => simp [Db.after, execStmt, deleteNullOrEq, hc, hk, ht, List.filter_filter]

/-- Counterexample to C4 as stated, on the table
`CREATE TABLE emails(id TEXT, body TEXT)` with the records `('1', '')` and
`('2', 'hello')` and the trigger `regrow`, which after each deletion inserts
`('a', '')` and `('b', '')`: the first run of the cleanup runner leaves three
records, the second run five. -/
theorem cleanup_trigger_not_idempotent :
    regrowing.valid = true
      ∧ ((Runner.cleanup.main regrowing).world.db.emails.map (fun t => t.rows))
          = some [[.text "2", .text "hello"], [.text "a", .text ""], [.text "b", .text ""]]
      ∧ ((Runner.cleanup.main (Runner.cleanup.main regrowing).world).world.db.emails.map
            (fun t => t.rows))
          = some [[.text "2", .text "hello"], [.text "a", .text ""], [.text "b", .text ""],
                  [.text "a", .text ""], [.text "b", .text ""]]
      ∧ (Runner.cleanup.main (Runner.cleanup.main regrowing).world).world
          ≠ (Runner.cleanup.main regrowing).world := by
  decide

/-- Claim C4, amended: for each runner other than the migration one and every
file, where for the cleanup runner `emails`, if the file has it, is an
ordinary table without `DELETE` trigger, running the runner a second time
leaves the file exactly as the first run left it. -/
theorem maintenance_idempotent (r : Runner) (w : World) (hr : r ≠ .migration)
    (hplain : r = .cleanup → w.db.untriggered = true) :
    (r.main (r.main w).world).world = (r.main w).world := by
  cases r with
  | migration => exact absurd rfl hr
  | analyzer =>
    simp only [Runner.main, analyzer_run, apply_eq _ _ _ parse_analyze]
    exact applyDb_idem _ _ (after_analyze_idem _)
  | vacuum =>
    simp only [Runner.main, vacuum_run, apply_eq _ _ _ parse_vacuum]
    exact applyDb_idem _ _ (after_vacuum_idem _)
  | cleanup =>
    simp only [Runner.main, cleanup_run, apply_eq _ _ _ parse_cleanup]
    exact applyDb_idem _ _ (after_cleanup_idem _ _ (hplain rfl))
  | healthcheck =>
    simp only [Runner.main]
    rw [healthcheck_run (HealthcheckAgent.main w).world, healthcheck_run w]
  | indexing =>
    simp only [Runner.main, indexing_run, apply_eq _ _ _ parse_index_user,
      apply_eq _ _ _ parse_index_folder, applyDb_applyDb, after_createIndex, withIndex_twice]

/-- Witness for C4: the cleanup runner on the two-record table. -/
theorem maintenance_idempotent_witness :
    (Runner.cleanup.main (Runner.cleanup.main twoMails).world).world
      = (Runner.cleanup.main twoMails).world :=
  maintenance_idempotent .cleanup twoMails (by decide) (fun _ => by decide)

/-! ## Indexing -/

/-- Counterexample to C5 as stated: the `emails` table has the columns `user`
and `folder`, the name `idx_user_id` is already taken by an index on
`emails(folder)`, and after the indexing runner there is no index
`idx_user_id` on `emails(user)`: the first statement did nothing. -/
theorem indexing_name_taken :
    nameTaken.reachable = true
      ∧ (nameTaken.db.emails.map (fun t => hasColumn t.columns "user")) = some true
      ∧ (nameTaken.db.emails.map (fun t => hasColumn t.columns "folder")) = some true
      ∧ hasIndexOn (IndexingAgent.main nameTaken).world.db "idx_user_id" "user" = false
      ∧ (IndexingAgent.main nameTaken).world.db.indexes
          = [⟨"idx_user_id", "emails", "folder"⟩, ⟨"idx_folder", "emails", "folder"⟩] := by
  decide

/-- On the full-text table the engine refuses both statements (a virtual
table may not be indexed) and no index exists afterwards. -/
theorem indexing_refused_on_virtual_table :
    fullText.run "CREATE INDEX IF NOT EXISTS idx_user_id ON emails(user)"
        = .error (.isVirtual "emails")
      ∧ (IndexingAgent.main fullText).world.db.indexes = [] :=
  ⟨rfl, by decide⟩

/-- Claim C5, amended: on a usable, structurally valid file in which `emails`
is an ordinary table with the columns `user` and `folder` (their collating
sequences built-in ones, as for every column here), in which no table or
view is called `idx_user_id` or `idx_folder` and every index already
carrying one of the two names is the one on `emails(user)`, respectively on
`emails(folder)`, the indexing runner
leaves an index `idx_user_id` on `emails(user)` and an index `idx_folder` on
`emails(folder)`, removes no index, and the end state is the same, the listing
order of the indexes apart, whichever statement goes first. -/
theorem indexing_postcondition (w : World) (t : Table)
    (hvalid : w.valid = true) (htab : w.db.emails = some t)
    (hkind : t.kind = .ordinary)
    (huser : hasColumn t.columns "user" = true)
    (hfolder : hasColumn t.columns "folder" = true)
    (htu : tableNamed w.db "idx_user_id" = false)
    (htf : tableNamed w.db "idx_folder" = false)
    (hiu : ∀ ix ∈ w.db.indexes, sameName ix.name "idx_user_id" = true →
      sameName ix.table "emails" = true ∧ sameName ix.column "user" = true)
    (hif : ∀ ix ∈ w.db.indexes, sameName ix.name "idx_folder" = true →
      sameName ix.table "emails" = true ∧ sameName ix.column "folder" = true) :
    hasIndexOn (IndexingAgent.main w).world.db "idx_user_id" "user" = true
      ∧ hasIndexOn (IndexingAgent.main w).world.db "idx_folder" "folder" = true
      ∧ (∀ ix ∈ w.db.indexes, ix ∈ (IndexingAgent.main w).world.db.indexes)
      ∧ (IndexingAgent.mainSwapped w).world.db.sameContent (IndexingAgent.main w).world.db := by
  have hreach := valid_reachable w hvalid
  have hmain : (IndexingAgent.main w).world.db
      = (w.db.withIndex "idx_user_id" "user").withIndex "idx_folder" "folder" := by
    simp [indexing_run, apply_eq _ _ _ parse_index_user, apply_eq _ _ _ parse_index_folder,
      applyDb_applyDb, after_createIndex, World.applyDb, hreach]
  have hswap : (IndexingAgent.mainSwapped w).world.db
      = (w.db.withIndex "idx_folder" "folder").withIndex "idx_user_id" "user" := by
    simp [indexing_swapped_run, apply_eq _ _ _ parse_index_user,
      apply_eq _ _ _ parse_index_folder, applyDb_applyDb, after_createIndex, World.applyDb,
      hreach]
  rw [hmain, hswap]
  refine ⟨?_, ?_, ?_, ?_⟩
  · exact hasIndexOn_mono _ _ _ _ _ (hasIndexOn_withIndex _ t _ _ htab hkind huser htu hiu)
  · refine hasIndexOn_withIndex _ t _ _ ?_ hkind hfolder ?_ ?_
    · rw [withIndex_emails]; exact htab
    · simpa [tableNamed, withIndex_otherTables] using htf
    · intro ix hmem hname
      rcases mem_withIndex_inv _ _ _ _ hmem with h | h
      · exact hif ix h hname
      · subst h
        rw [user_ne_folder] at hname
        exact absurd hname (by decide)
  · intro ix hmem
    exact mem_withIndex _ _ _ _ (mem_withIndex _ _ _ _ hmem)
  · exact (withIndex_comm _ _ _ _ _ user_ne_folder folder_ne_user)

/-- Witness for C5: a table with both columns and no index yet. -/
theorem indexing_postcondition_witness :
    hasIndexOn (IndexingAgent.main noIndexYet).world.db "idx_user_id" "user" = true
      ∧ hasIndexOn (IndexingAgent.main noIndexYet).world.db "idx_folder" "folder" = true :=
  have h := indexing_postcondition noIndexYet
    (Table.plain
      [⟨"id", "INTEGER", .binary⟩, ⟨"user", "TEXT", .binary⟩,
       ⟨"folder", "TEXT", .binary⟩, ⟨"body", "TEXT", .binary⟩]
      [[.integer 1, .text "lay-k", .text "inbox", .text "hello"]])
    (by decide) (by decide) (by decide) (by decide) (by decide) (by decide) (by decide)
    (by decide) (by decide)
  ⟨h.1, h.2.1⟩

/-! ## Statement texts -/

/-- The cleanup text of the program and the cleanup text of the operation
table have the same outcome on every file whose `emails` table has no column
with the empty name. -/
theorem cleanup_texts_agree (w : World)
    (h : ∀ t, w.db.emails = some t → colIndex t.columns "" = none) :
    w.run "DELETE FROM emails WHERE body IS NULL OR body = \"\""
      = w.run "DELETE FROM emails WHERE body IS NULL OR body = ''" := by
  cases hr : w.reachable with
  | false => simp [World.run, hr]
  | true =>
    simp only [World.run, hr, parse_cleanup, parse_cleanup_single, execStmt, deleteNullOrEq,
      if_true]
    cases he : w.db.emails with
    | none => rfl
    | some t =>
      have hq := h t he
      simp only [selected, Operand.eval, hq]

/-- Counterexample to C6 as stated: the text the cleanup runner submits is not
the text of the operation table; it compares `body` with a double-quoted empty
token where the table has a single-quoted empty string. -/
theorem cleanup_text_differs :
    (CleanupAgent.main twoMails).submitted
        = ["DELETE FROM emails WHERE body IS NULL OR body = \"\""]
      ∧ (CleanupAgent.main twoMails).submitted ≠ specStatements .cleanup := by
  decide

/-- Claim C6, amended: every runner submits, whatever the file, a fixed
sequence of texts and nothing else; for the analyze, healthcheck, indexing,
migration and vacuum runners it is the sequence listed for the task in the
operation table, for the cleanup runner it is the single text
`DELETE FROM emails WHERE body IS NULL OR body = ""`. -/
theorem runners_submit_fixed_texts (r : Runner) (w : World) :
    (r.main w).submitted
      = if r = .cleanup then ["DELETE FROM emails WHERE body IS NULL OR body = \"\""]
        else specStatements r := by
  cases r
  case healthcheck =>
    rw [Runner.main, healthcheck_run]
    simp [Proc.submitted, Runner.operation, specStatements]
  all_goals
    simp [Runner.main, analyzer_run, cleanup_run, indexing_run, migration_run, vacuum_run,
      Proc.submitted, Runner.operation, specStatements]

/-! ## Swallowed errors -/

/-- Claim C2: whatever the file is like (unusable, lacking the table, or fine),
each of the analyze, cleanup, indexing, migration and vacuum runners prints
exactly its starting line and its completion line and exits with code 0, and
the healthcheck runner exits with code 0 as well: output and exit code of
those five, and the exit code of all six, do not depend on the outcome. -/
theorem runners_swallow_errors (w : World) :
    ((AnalyzerAgent.main w).stdout = ["📊 Running ANALYZE...", "✅ ANALYZE complete."]
        ∧ (AnalyzerAgent.main w).exitCode = 0)
      ∧ ((CleanupAgent.main w).stdout = ["🧹 Running cleanup agent...", "✅ Cleanup complete."]
        ∧ (CleanupAgent.main w).exitCode = 0)
      ∧ ((IndexingAgent.main w).stdout = ["🏗️  Creating indexes...", "✅ Indexes created."]
        ∧ (IndexingAgent.main w).exitCode = 0)
      ∧ ((MigrationAgent.main w).stdout
            = ["🔁 Running migration agent...", "✅ Column added. Populate logic TBD."]
        ∧ (MigrationAgent.main w).exitCode = 0)
      ∧ ((VacuumAgent.main w).stdout = ["🗜️  Vacuuming database...", "✅ Vacuum complete."]
        ∧ (VacuumAgent.main w).exitCode = 0)
      ∧ (HealthcheckAgent.main w).exitCode = 0 := by
  rw [analyzer_run, cleanup_run, indexing_run, migration_run, vacuum_run, healthcheck_run]
  simp [Proc.stdout, Proc.exitCode, Runner.startLine, Runner.operation]

/-! ## Healthcheck -/

/-- Counterexample to C7 as stated: on a file on which the query itself fails,
no status value is returned and the result string is empty: the runner prints
`Health Check: ` with nothing after it, neither a value returned by the check
nor a diagnostic. -/
theorem healthcheck_failed_query_prints_nothing :
    unusable.corrupted = true
      ∧ unusable.query "PRAGMA integrity_check" = .error .cannotOpen
      ∧ (HealthcheckAgent.main unusable).result = ""
      ∧ (HealthcheckAgent.main unusable).stdout
          = ["🩺 Performing health check...", "Health Check: "] :=
  ⟨by decide, rfl, by decide, by decide⟩

/-- Claim C7, amended: the healthcheck runner prints `Health Check: ` followed
by the result string.  When the query runs, the result string is the first row
the integrity check returns: exactly `ok` on a structurally valid file, the
first reported problem otherwise.  When the query itself fails, nothing is
returned and the result string is empty.  On every corrupted file the result
string differs from `ok` (the engine reporting no problem whose text is
`ok`). -/
theorem healthcheck_result_string (w : World) (hmsgs : ∀ m ∈ w.problems, m ≠ "ok") :
    (HealthcheckAgent.main w).stdout
        = ["🩺 Performing health check...", "Health Check: " ++ (HealthcheckAgent.main w).result]
      ∧ (w.reachable = true →
          (integrityRows w).head? = some (HealthcheckAgent.main w).result)
      ∧ (w.valid = true → (HealthcheckAgent.main w).result = "ok")
      ∧ (w.reachable = true → w.problems ≠ [] →
          (HealthcheckAgent.main w).result ∈ w.problems)
      ∧ (w.reachable = false → (HealthcheckAgent.main w).result = "")
      ∧ (w.corrupted = true → (HealthcheckAgent.main w).result ≠ "ok") := by
  refine ⟨?_, ?_, ?_, ?_, ?_, ?_⟩
  · conv_lhs => rw [healthcheck_run]
    simp [Proc.stdout, Runner.startLine, Runner.operation]
  · intro hr
    rw [healthcheck_result, hr]
    cases hp : w.problems <;> simp [integrityRows, hp]
  · intro hv
    simp only [World.valid, Bool.and_eq_true, List.isEmpty_iff] at hv
    rw [healthcheck_result, hv.1, hv.2]
    rfl
  · intro hr hp
    rw [healthcheck_result, hr]
    cases hq : w.problems with
    | nil => exact absurd hq hp
    | cons m ms => simp
  · intro hr
    rw [healthcheck_result, hr]
    rfl
  · intro hc
    rw [healthcheck_result]
    cases hr : w.reachable with
    | false => simp
    | true =>
      cases hp : w.problems with
      | nil => simp [World.corrupted, hr, hp] at hc
      | cons m ms =>
        simp only [if_true]
        exact hmsgs m (by simp [hp])

/-- Witness for C7: a usable file on which the check reports two problems. -/
theorem healthcheck_result_string_witness :
    (HealthcheckAgent.main damaged).stdout
      = ["🩺 Performing health check...",
         "Health Check: " ++ (HealthcheckAgent.main damaged).result] :=
  (healthcheck_result_string damaged (by decide)).1

/-! ## Step order -/

/-- Counterexample to C8 as stated: the run of the vacuum runner is not the
sequence acquire, starting message, operation, completion message, release,
whatever the completion message: its first action is the starting message, the
handle is acquired after it. -/
theorem vacuum_prints_before_acquiring :
    (¬ ∃ done, (VacuumAgent.main twoMails).trace = specOrder .vacuum done)
      ∧ (VacuumAgent.main twoMails).trace
          = [.print "🗜️  Vacuuming database...", .acquire "/app/data/enron.db",
             .exec "VACUUM", .print "✅ Vacuum complete.", .release] := by
  refine ⟨?_, by decide⟩
  rintro ⟨done, h⟩
  rw [vacuum_run] at h
  simp [specOrder] at h

/-- Claim C8, amended: for every runner and every file, the run is exactly:
print the starting message, acquire the handle, carry out the database calls of
the one operation, print the closing message, release the handle; the handle
is released exactly once, as the last action, and is closed at the end. -/
theorem runner_step_order (r : Runner) (w : World) :
    (∃ done, (r.main w).trace
        = .print r.startLine :: .acquire dbPath :: (r.operation ++ [.print done, .release]))
      ∧ (r.main w).trace.count .release = 1
      ∧ (r.main w).trace.getLast? = some .release
      ∧ (r.main w).db = .closed
      ∧ (r.main w).panicked = false := by
  cases r
  · rw [Runner.main, analyzer_run]
    exact ⟨⟨_, rfl⟩, by simp [Runner.operation], by simp [Runner.operation], rfl, rfl⟩
  · rw [Runner.main, cleanup_run]
    exact ⟨⟨_, rfl⟩, by simp [Runner.operation], by simp [Runner.operation], rfl, rfl⟩
  · rw [Runner.main, healthcheck_run]
    exact ⟨⟨_, rfl⟩, by simp [Runner.operation], by simp [Runner.operation], rfl, rfl⟩
  · rw [Runner.main, indexing_run]
    exact ⟨⟨_, rfl⟩, by simp [Runner.operation], by simp [Runner.operation], rfl, rfl⟩
  · rw [Runner.main, migration_run]
    exact ⟨⟨_, rfl⟩, by simp [Runner.operation], by simp [Runner.operation], rfl, rfl⟩
  · rw [Runner.main, vacuum_run]
    exact ⟨⟨_, rfl⟩, by simp [Runner.operation], by simp [Runner.operation], rfl, rfl⟩

/-! ## The daemon -/

/-- Counterexample to C9 as stated: all six launched loops, not five, are a log
line and a sleep and nothing else, and no loop carries out a database
operation. -/
theorem daemon_all_six_todo :
    (launched.filter (fun a => logAndSleepOnly a.body)).length = 6
      ∧ (launched.filter (fun a => a.body.any LoopStmt.isOperation)).length = 0
      ∧ ¬ ∃ a : Agent, a.body.any LoopStmt.isOperation = true := by
  refine ⟨by decide, by decide, ?_⟩
  rintro ⟨a, h⟩
  cases a <;> exact absurd h (by decide)

/-- Claim C9, amended: the daemon launches exactly six loops (summarizer,
classifier, cleanup, vacuum, healthcheck, metrics); the body of each is one log
line followed by the sleep of its fixed interval; none of the six has any
logic beyond that, and none carries out a maintenance operation. -/
theorem daemon_loop_bodies :
    launched = [.summarizer, .classifier, .cleanup, .vacuum, .healthcheck, .metrics]
      ∧ (∀ a : Agent, ∃ msg, a.body = [.logPrintln msg, .timeSleep (specMinutes a * Minute)])
      ∧ (∀ a : Agent, logAndSleepOnly a.body = true)
      ∧ (∀ a : Agent, a.body.any LoopStmt.isOperation = false) := by
  refine ⟨by decide, ?_, ?_, ?_⟩
  · intro a
    cases a <;> exact ⟨_, rfl⟩
  · intro a
    cases a <;> rfl
  · intro a
    cases a <;> rfl

theorem loop_reachable_cases (a : Agent) (s : LoopState) (h : LoopReachable a.body s) :
    s = a.body ∨ s = a.body.tail := by
  induction h with
  | start => exact Or.inl rfl
  | step _ hstep ih =>
    rcases ih with rfl | rfl
    · right
      cases a <;> simp [loopStep, Agent.body, runSummarizerAgent, runClassifierAgent,
        runCleanupAgent, runVacuumAgent, runHealthcheckAgent, runMetricsAgent] at hstep ⊢ <;>
        exact hstep.2.symm
    · left
      cases a <;> simp [loopStep, Agent.body, runSummarizerAgent, runClassifierAgent,
        runCleanupAgent, runVacuumAgent, runHealthcheckAgent, runMetricsAgent] at hstep ⊢ <;>
        exact hstep.2.symm

theorem loopTrace_length (a : Agent) (n : Nat) (s : LoopState)
    (h : s = a.body ∨ s = a.body.tail) : (loopTrace a.body n s).length = n := by
  induction n generalizing s with
  | zero => rfl
  | succ k ih =>
    rcases h with rfl | rfl
    · have := ih a.body.tail (Or.inr rfl)
      cases a <;> simpa [loopTrace, loopStep, Agent.body, runSummarizerAgent,
        runClassifierAgent, runCleanupAgent, runVacuumAgent, runHealthcheckAgent,
        runMetricsAgent] using this
    · have := ih a.body (Or.inl rfl)
      cases a <;> simpa [loopTrace, loopStep, Agent.body, runSummarizerAgent,
        runClassifierAgent, runCleanupAgent, runVacuumAgent, runHealthcheckAgent,
        runMetricsAgent] using this

theorem daemon_after_blocked (n : Nat) : Daemon.after (7 + n) = Daemon.after 7 := by
  induction n with
  | zero => rfl
  | succ k ih =>
    show (Daemon.after (7 + k)).step = Daemon.after 7
    rw [ih]
    decide

/-- Claim C10: every state a loop can reach has a successor; a running loop
goes on to waiting, a waiting loop sleeps its fixed interval (1 minute for the
summarizer and the classifier, 10 minutes for cleanup, 1 hour for vacuum, 30
minutes for the healthcheck, 5 minutes for metrics) and goes back to the start
of its body, running; a loop takes any number of steps; and `main`, which has
launched the six loops after seven steps and then sits on the empty `select`,
has not returned after any number of steps. -/
theorem daemon_never_terminates :
    (∀ (a : Agent) (s : LoopState), LoopReachable a.body s →
        ∃ e s', loopStep a.body s = some (e, s') ∧ LoopReachable a.body s'
          ∧ (phase s = .running → (∃ msg, e = .logPrintln msg) ∧ phase s' = .waiting)
          ∧ (phase s = .waiting →
              e = .timeSleep (specMinutes a * Minute) ∧ s' = a.body ∧ phase s' = .running))
      ∧ (∀ (a : Agent) (n : Nat), (loopTrace a.body n a.body).length = n)
      ∧ (specMinutes .summarizer * Minute = 1 * Minute
          ∧ specMinutes .classifier * Minute = 1 * Minute
          ∧ specMinutes .cleanup * Minute = 10 * Minute
          ∧ specMinutes .vacuum * Minute = 1 * Hour
          ∧ specMinutes .healthcheck * Minute = 30 * Minute
          ∧ specMinutes .metrics * Minute = 5 * Minute)
      ∧ (∀ n, (Daemon.after n).returned = false)
      ∧ (∀ n, 7 ≤ n → (Daemon.after n).main = [.selectEmpty]
          ∧ (Daemon.after n).spawned
              = [.summarizer, .classifier, .cleanup, .vacuum, .healthcheck, .metrics]) := by
  refine ⟨?_, ?_, by decide, ?_, ?_⟩
  · intro a s hs
    rcases loop_reachable_cases a s hs with rfl | rfl
    · obtain ⟨msg, hstep⟩ :
          ∃ msg, loopStep a.body a.body = some (.logPrintln msg, a.body.tail) := by
        cases a <;> exact ⟨_, rfl⟩
      refine ⟨_, _, hstep, LoopReachable.step hs hstep, ?_, ?_⟩
      · intro _
        exact ⟨⟨msg, rfl⟩, by cases a <;> rfl⟩
      · intro hw
        cases a <;> exact absurd hw (by decide)
    · refine ⟨.timeSleep (specMinutes a * Minute), a.body, ?_, LoopReachable.start, ?_, ?_⟩
      · cases a <;> rfl
      · intro hr
        cases a <;> exact absurd hr (by decide)
      · intro _
        exact ⟨rfl, rfl, by cases a <;> rfl⟩
  · intro a n
    exact loopTrace_length a n a.body (Or.inl rfl)
  · intro n
    by_cases h : n < 7
    · interval_cases n <;> decide
    · obtain ⟨k, rfl⟩ : ∃ k, n = 7 + k := ⟨n - 7, by omega⟩
      rw [daemon_after_blocked]
      decide
  · intro n hn
    obtain ⟨k, rfl⟩ : ∃ k, n = 7 + k := ⟨n - 7, by omega⟩
    rw [daemon_after_blocked]
    exact ⟨by decide, by decide⟩

end EnronBox
